import Mathlib

/-!
# Verification of the call-flow signaling handler (`callFlowHandler.js`)

This file gives a shallow embedding of the `CallHandler` class from
`src/callFlowHandler.js`: the call-session state (the static fields
`_invite`, `_calleeRingTimerId`, `_callerRingTimerId`, `_inCallOrConnecting`,
`_pendingCalleeJoin`, `_currentSide`), the outbound socket messages, the
local DOM events and UI dispatches each handler produces, and the handlers
themselves as pure functions `state → state × effects`.

Modelling conventions:
* A JS field that may be `undefined` is an `Option`; `none` stands for
  `undefined`/absent.  The code's checks `x === undefined || x === ""`
  are the predicate `missingStr`.
* JS `a || b` on strings is `jsOrStr` / `jsOrO` (the empty string is falsy).
* Opaque JS objects whose internals the handler never inspects
  (`callerData`, `calleeData`) are carried as `Option String` tokens.
* Browser timer handles are `Option Nat`; arming a timer stores a caller
  supplied fresh id, `clearTimeout` plus nulling is `none`.
* Logging (`console.log`, `DebugLogger.addLog`) and the `chimeHandler`
  alert-flag resets are not part of the protocol state and are omitted.
* Asynchronous continuations (`.then` / `.catch` of the provisioning
  chain) are embedded as separate functions, matching the single-threaded
  run-to-completion event model: each is a later event acting on the state.
-/

namespace CallFlow

/-- Constant `CallHandler.TYPE_INSTANT`. -/
def TYPE_INSTANT : String := "INSTANT_ONE_ON_ONE"

/-- Flag `CallHandler.CALLEE_MANUAL_JOIN_ENABLED` (source line 19: `true`). -/
def CALLEE_MANUAL_JOIN_ENABLED : Bool := true

/-- The check `x === undefined || x === ""` used by every field validator. -/
def missingStr (o : Option String) : Bool :=
  match o with
  | none => true
  | some s => s = ""

/-- JS truthiness of an optional string (`undefined` and `""` are falsy). -/
def truthyStr (o : Option String) : Bool :=
  match o with
  | none => false
  | some s => s ≠ ""

/-- JS `a || d` with a string default: falsy `a` (absent or `""`) yields `d`. -/
def jsOrStr (o : Option String) (d : String) : String :=
  match o with
  | none => d
  | some s => if s = "" then d else s

/-- JS `a || b` where both sides may be `undefined`. -/
def jsOrO (a b : Option String) : Option String :=
  match a with
  | none => b
  | some s => if s = "" then b else some s

/-- JS `a || null` on an opaque object token. -/
def jsOrNull (o : Option String) : Option String :=
  match o with
  | none => none
  | some s => if s = "" then none else some s

/-- The expression `err && err.message ? err.message : "Unknown error"` — the error text
used by the failure paths. -/
def jsErrText (errMsg : Option String) : String :=
  match errMsg with
  | some m => if m = "" then "Unknown error" else m
  | none => "Unknown error"

/-- A Chime `MediaPlacement` object; the handler only ever inspects
`AudioHostUrl`, the rest is opaque. -/
structure MediaPlacement where
  AudioHostUrl : Option String := none
  deriving Repr, DecidableEq

/-- A Chime `Meeting` object as (re)constructed by `joinChimeMeeting`. -/
structure Meeting where
  MeetingId : Option String := none
  MediaPlacement : Option MediaPlacement := none
  MediaRegion : Option String := none
  ExternalMeetingId : Option String := none
  deriving Repr, DecidableEq

/-- A Chime `Attendee` object. -/
structure Attendee where
  AttendeeId : Option String := none
  ExternalUserId : Option String := none
  deriving Repr, DecidableEq

/-- Field `CallHandler._invite` — populated from the incoming socket body
(source lines 153-160). -/
structure Invite where
  callerId : Option String := none
  calleeId : Option String := none
  callerRole : Option String := none
  callType : Option String := none
  callerData : Option String := none
  calleeData : Option String := none
  deriving Repr, DecidableEq

/-- Field `CallHandler._pendingCalleeJoin` (source lines 906-913). -/
structure PendingJoin where
  meetingId : String
  calleeId : String
  calleeRole : String
  chimeId : String
  callType : Option String
  fullMeeting : Option Meeting
  deriving Repr, DecidableEq

/-- The mutable static fields of `CallHandler` that make up the call
session state. -/
structure CallState where
  invite : Invite := {}
  calleeRingTimerId : Option Nat := none
  callerRingTimerId : Option Nat := none
  inCallOrConnecting : Bool := false
  pendingCalleeJoin : Option PendingJoin := none
  currentSide : Option String := none
  deriving Repr, DecidableEq

/-- Outbound socket messages (`SocketHandler.sendSocketMessage` payloads),
one constructor per `FLAGS` value the handler sends. -/
inductive OutMsg where
  | accepted (toUser callerId calleeId : String)
  | declined (toUser callerId calleeId reason : String)
  | cancelled (toUser callerId calleeId : String)
  | timeout (toUser callerId calleeId : String)
  | selfStopRing (toUser calleeId : String)
  | meetingReady (toUser meetingId callerId calleeId : String)
      (callerRole : Option String) (calleeRole chimeMeetingId dbMeetingId : String)
  | meetingProblem (toUser meetingId callerId calleeId message : String)
  | meetingStatus (toUser status message : String) (meetingId : Option String)
  deriving Repr, DecidableEq

/-- Local DOM `CustomEvent`s dispatched on `document`. -/
inductive LocalEvt where
  | callRinging (callerId calleeId : String) (callerData calleeData : Option String)
  | callAccepted (callerId calleeId : String)
  | callDeclined (callerId calleeId reason : String)
  | callCancelled (callerId calleeId : String)
  | callEnded (reason : String) (callerId calleeId : Option String)
  | meetingConnect (meetingId userId role : String) (chimeMeetingId : Option String)
  | meetingProblem (meetingId callerId calleeId message : String)
  deriving Repr, DecidableEq

/-- The observable effects of one handler invocation: socket sends, local
DOM events, and `dipatchUI` calls (state, substate). -/
structure Effects where
  sends : List OutMsg := []
  localEvents : List LocalEvt := []
  ui : List (String × String) := []
  deriving Repr, DecidableEq

/-- An inbound socket message body; every field the handlers read.
`none` stands for a missing field, and the whole body may be absent. -/
structure MsgBody where
  callType : Option String := none
  callerId : Option String := none
  calleeId : Option String := none
  role : Option String := none
  reason : Option String := none
  mediaType : Option String := none
  callerData : Option String := none
  calleeData : Option String := none
  meetingId : Option String := none
  callerRole : Option String := none
  calleeRole : Option String := none
  chimeMeetingId : Option String := none
  dbMeetingId : Option String := none
  message : Option String := none
  deriving Repr, DecidableEq

/-- Method `CallHandler.clearCalleeRingTimer` (source lines 2462-2473). -/
def clearCalleeRingTimer (s : CallState) : CallState :=
  match s.calleeRingTimerId with
  | some _ => { s with calleeRingTimerId := none }
  | none => s

/-- Method `CallHandler.clearCallerRingTimer` (source lines 2475-2486). -/
def clearCallerRingTimer (s : CallState) : CallState :=
  match s.callerRingTimerId with
  | some _ => { s with callerRingTimerId := none }
  | none => s

/-- Handler `CallHandler.handleSocketIncomingCall` (source lines 1780-1888).
`freshTimer` is the browser timer handle returned by `setTimeout` when the
callee ring timer is armed. -/
def handleSocketIncomingCall (body? : Option MsgBody) (freshTimer : Nat)
    (s : CallState) : CallState × Effects :=
  match body? with
  | none => (s, {})
  | some body =>
    if body.callType ≠ some TYPE_INSTANT then (s, {})
    else if missingStr body.callerId then (s, {})
    else if missingStr body.calleeId then (s, {})
    else if missingStr body.role then (s, {})
    else if s.inCallOrConnecting = true then
      -- Busy guard (lines 1804-1832): auto-decline, touch nothing else.
      (s, { sends := [.declined (body.callerId.getD "") (body.callerId.getD "")
                        (body.calleeId.getD "") "in_another_call"],
            ui := [("callee:terminated", "auto-declined")] })
    else
      -- Lines 1834-1888: store the invite from the socket body, become the
      -- callee, dispatch the local ringing event and incoming UI, and arm
      -- the callee ring timer.
      let mediaType := jsOrStr body.mediaType "video"
      let s1 : CallState :=
        { s with
          invite :=
            { callerId := body.callerId
              calleeId := body.calleeId
              callerRole := body.role
              callType := some mediaType
              callerData := jsOrNull body.callerData
              calleeData := jsOrNull body.calleeData }
          currentSide := some "callee" }
      let s2 := clearCalleeRingTimer s1
      let s3 := { s2 with calleeRingTimerId := some freshTimer }
      (s3,
       { localEvents := [.callRinging (body.callerId.getD "") (body.calleeId.getD "")
                           body.callerData body.calleeData]
         ui := [((if mediaType = "audio" then "callee:incomingAudioCall"
                  else "callee:incomingVideoCall"), "none")] })

/-- The callback armed for the callee ring timer by
`handleSocketIncomingCall` (source lines 1885-1887).  In the source the
`setTimeout` body contains only the comment `// ...`: the fired timer
performs no sends, no dispatches and no state change. -/
def calleeRingTimerCallback (s : CallState) : CallState × Effects :=
  (s, {})

/-- Handler `CallHandler.handleSocketAccepted` (source lines 1890-1938). -/
def handleSocketAccepted (body? : Option MsgBody) (s : CallState) :
    CallState × Effects :=
  match body? with
  | none => (s, {})
  | some body =>
    if missingStr body.callerId then (s, {})
    else if missingStr body.calleeId then (s, {})
    else
      ({ clearCallerRingTimer s with
          currentSide := some "caller", inCallOrConnecting := true },
       { ui := [("caller:callAccepted", "none")] })

/-- Handler `CallHandler.handleSocketDeclined` (source lines 1940-1985). -/
def handleSocketDeclined (body? : Option MsgBody) (s : CallState) :
    CallState × Effects :=
  match body? with
  | none => (s, {})
  | some body =>
    if missingStr body.callerId then (s, {})
    else if missingStr body.calleeId then (s, {})
    else if missingStr body.reason then (s, {})
    else
      (clearCallerRingTimer s,
       { localEvents := [.callEnded "declined" body.callerId body.calleeId]
         ui := [("caller:declined", "none")] })

/-- Handler `CallHandler.handleSocketTimeout` (source lines 1987-2015).  Note:
no validation of the body at all before the state is mutated. -/
def handleSocketTimeout (body? : Option MsgBody) (s : CallState) :
    CallState × Effects :=
  ({ clearCalleeRingTimer (clearCallerRingTimer s) with inCallOrConnecting := false },
   { localEvents := [.callEnded "timeout" (body?.bind (·.callerId))
                       (body?.bind (·.calleeId))]
     ui := [("caller:terminated", "timeout")] })

/-- Handler `CallHandler.handleSocketCancelled` (source lines 2017-2043).  Note:
no validation, and `_inCallOrConnecting` is not touched. -/
def handleSocketCancelled (body? : Option MsgBody) (s : CallState) :
    CallState × Effects :=
  (clearCalleeRingTimer (clearCallerRingTimer s),
   { localEvents := [.callEnded "hangup" (body?.bind (·.callerId))
                       (body?.bind (·.calleeId))]
     ui := [("callee:terminated", "cancelled")] })

/-- Handler `CallHandler.handleSocketSelfStopRinging` (source lines 2045-2051).
No validation; clears both ring timers unconditionally. -/
def handleSocketSelfStopRinging (body? : Option MsgBody) (s : CallState) :
    CallState × Effects :=
  match body? with
  | _ => (clearCalleeRingTimer (clearCallerRingTimer s), {})

/-- Handler `CallHandler.handleSocketMeetingProblem` (source lines 2154-2167).
No validation; resets the busy flag unconditionally. -/
def handleSocketMeetingProblem (body? : Option MsgBody) (s : CallState) :
    CallState × Effects :=
  match body? with
  | _ => ({ s with inCallOrConnecting := false },
          { ui := [("caller:terminated", "error")] })

/-- A request to the (external) media-join path `joinChimeMeeting`, as
issued by a handler: its arguments in source order. -/
structure JoinReq where
  meetingId : String
  userId : String
  role : String
  chimeMeetingId : Option String
  callType : Option String
  fullMeeting : Option Meeting
  deriving Repr, DecidableEq

/-- Handler `CallHandler.handleSocketMeetingReady` (source lines 2053-2152),
synchronous part: validation, the UI dispatch, and the invocation of
`joinChimeMeeting` with the caller role from the payload.  The result of
the asynchronous join is handled by `callerJoinFailedCatch` below. -/
def handleSocketMeetingReady (body? : Option MsgBody) (s : CallState) :
    CallState × Effects × Option JoinReq :=
  match body? with
  | none => (s, {}, none)
  | some body =>
    if missingStr body.meetingId then (s, {}, none)
    else if missingStr body.callerId then (s, {}, none)
    else if missingStr body.calleeId then (s, {}, none)
    else if missingStr body.callerRole then (s, {}, none)
    else if missingStr body.calleeRole then (s, {}, none)
    else
      (s,
       { ui := [("caller:callAccepted", "none")] },
       some { meetingId := body.meetingId.getD ""
              userId := body.callerId.getD ""
              role := body.callerRole.getD ""
              chimeMeetingId := body.chimeMeetingId
              callType := s.invite.callType
              fullMeeting := none })

/-- The `.catch` branch of the caller's join inside
`handleSocketMeetingReady` (source lines 2129-2151): a *local* DOM
`MEETING_PROBLEM` event and a UI dispatch — no socket send, and the busy
flag is left untouched. -/
def callerJoinFailedCatch (body : MsgBody) (s : CallState) : CallState × Effects :=
  (s,
   { localEvents := [.meetingProblem (body.meetingId.getD "")
                       (body.callerId.getD "") (body.calleeId.getD "") "join failed"]
     ui := [("caller:terminated", "error")] })

/-- The `CallHandler._els` input elements read by the click handlers: `none`
means the DOM element is missing, `some v` that it exists with value `v`. -/
structure UIEls where
  callType : Option String := none
  role : Option String := none
  currentUserId : Option String := none
  targetUserId : Option String := none
  rejectReason : Option String := none
  deriving Repr, DecidableEq

/-- The values captured by the provisioning chain started from
`handleAcceptClick` / `handleAppAcceptCall`: in the source these are the
closure variables `callerIdVal`/`callerId`, `calleeIdVal`/`calleeId` and
`calleeRole`. -/
structure AcceptChain where
  callerIdVal : String
  calleeIdVal : String
  calleeRole : String
  deriving Repr, DecidableEq

/-- Handler `CallHandler.handleAcceptClick` (source lines 656-972), synchronous
part: element and value validation, the stored-invite `callerRole` guard,
clearing the callee ring timer, setting the busy flag, the `SelfStopRing`,
`Accepted` and `meeting:status` sends, and starting the provisioning chain
(returned as `some AcceptChain`). -/
def handleAcceptClick (els : UIEls) (s : CallState) :
    CallState × Effects × Option AcceptChain :=
  match els.currentUserId, els.targetUserId, els.callType, els.role with
  | none, _, _, _ => (s, {}, none)
  | _, none, _, _ => (s, {}, none)
  | _, _, none, _ => (s, {}, none)
  | _, _, _, none => (s, {}, none)
  | some calleeIdVal, some callerIdVal, some callTypeVal, some calleeRole =>
    if callTypeVal ≠ TYPE_INSTANT then (s, {}, none)
    else if callerIdVal = "" then (s, {}, none)
    else if calleeIdVal = "" then (s, {}, none)
    else if calleeRole = "" then (s, {}, none)
    else if s.invite.callerRole = none then (s, {}, none)
    else
      let s1 := clearCalleeRingTimer s
      let s2 := { s1 with currentSide := some "callee", inCallOrConnecting := true }
      (s2,
       { sends := [.selfStopRing calleeIdVal calleeIdVal,
                   .accepted callerIdVal callerIdVal calleeIdVal,
                   .meetingStatus callerIdVal "creating_db"
                     "Creating meeting in database..." none]
         localEvents := [.callAccepted callerIdVal calleeIdVal]
         ui := [("callee:callAccepted", "none")] },
       some { callerIdVal, calleeIdVal, calleeRole })

/-- The success continuation of the callee provisioning chain in
`handleAcceptClick` (source lines 861-947): after `getMeetingID` and
`createChimeMeeting` resolve, send `MEETING_READY` (addressed with
`_invite.callerId || callerIdVal`, roles from the stored invite and the
chain), then in manual-join mode store `_pendingCalleeJoin`; in auto-join
mode immediately request the join. -/
def acceptFlowOnMeetingCreated (c : AcceptChain) (meetingId chimeId : String)
    (fullMeeting : Option Meeting) (s : CallState) :
    CallState × Effects × Option JoinReq :=
  let ready : OutMsg :=
    .meetingReady (jsOrStr s.invite.callerId c.callerIdVal) meetingId
      c.callerIdVal c.calleeIdVal s.invite.callerRole c.calleeRole
      chimeId meetingId
  if CALLEE_MANUAL_JOIN_ENABLED then
    let pending : PendingJoin :=
      { meetingId, calleeId := c.calleeIdVal, calleeRole := c.calleeRole,
        chimeId, callType := s.invite.callType, fullMeeting }
    ({ s with pendingCalleeJoin := some pending },
     { sends := [ready], ui := [("callee:connected", "none")] },
     none)
  else
    (s, { sends := [ready] },
     some { meetingId, userId := c.calleeIdVal, role := c.calleeRole,
            chimeMeetingId := some chimeId, callType := s.invite.callType,
            fullMeeting })

/-- The `.catch` branch of the callee provisioning chain in
`handleAcceptClick` (source lines 948-971): reset the busy flag and send
exactly one `MEETING_PROBLEM` to the caller.  `errMsg` is the thrown
error's `message` (`none` when absent, matching `err && err.message`). -/
def acceptFlowOnError (c : AcceptChain) (errMsg : Option String) (s : CallState) :
    CallState × Effects :=
  ({ s with inCallOrConnecting := false },
   { sends := [.meetingProblem c.callerIdVal "unknown" c.callerIdVal
                 c.calleeIdVal (jsErrText errMsg)]
     ui := [("callee:terminated", "error")] })

/-- Detail object of the `app:call:accept` event. -/
structure AppAcceptDetail where
  callerId : Option String := none
  calleeId : Option String := none
  role : Option String := none
  callType : Option String := none
  deriving Repr, DecidableEq

/-- Handler `CallHandler.handleAppAcceptCall` (source lines 1335-1602),
synchronous part.  Unlike `handleAcceptClick` it neither clears the
callee ring timer nor sets `_inCallOrConnecting`; it sends
`SelfStopRing`, `Accepted` and the `creating_db` status, dispatches the
local `CALL_ACCEPTED` event, and starts the provisioning chain. -/
def handleAppAcceptCall (d? : Option AppAcceptDetail) (s : CallState) :
    CallState × Effects × Option AcceptChain :=
  match d? with
  | none => (s, {}, none)
  | some d =>
    if d.callType ≠ some TYPE_INSTANT then (s, {}, none)
    else if missingStr d.callerId then (s, {}, none)
    else if missingStr d.calleeId then (s, {}, none)
    else if missingStr d.role then (s, {}, none)
    else if s.invite.callerRole = none then (s, {}, none)
    else
      let callerId := d.callerId.getD ""
      let calleeId := d.calleeId.getD ""
      let calleeRole := d.role.getD ""
      ({ s with currentSide := some "callee" },
       { sends := [.selfStopRing calleeId calleeId,
                   .accepted callerId callerId calleeId,
                   .meetingStatus callerId "creating_db"
                     "Creating meeting in database..." none]
         localEvents := [.callAccepted callerId calleeId]
         ui := [("callee:callAccepted", "none")] },
       some { callerIdVal := callerId, calleeIdVal := calleeId, calleeRole })

/-- Handler `CallHandler.handleManualCalleeJoin` (source lines 2491-2537),
synchronous part: with no pending join it is a strict no-op; otherwise
the pending slot is nulled *before* the join request is issued, and the
join runs with the consumed descriptor. -/
def handleManualCalleeJoin (s : CallState) : CallState × Effects × Option JoinReq :=
  match s.pendingCalleeJoin with
  | none => (s, {}, none)
  | some p =>
    ({ s with pendingCalleeJoin := none }, {},
     some { meetingId := p.meetingId, userId := p.calleeId, role := p.calleeRole,
            chimeMeetingId := some p.chimeId, callType := p.callType,
            fullMeeting := p.fullMeeting })

/-- The `.catch` branch of `handleManualCalleeJoin` (source lines
2524-2536): reset the busy flag and dispatch an error UI state — no
`MEETING_PROBLEM` is sent. -/
def manualJoinFailedCatch (s : CallState) : CallState × Effects :=
  ({ s with inCallOrConnecting := false },
   { ui := [("callee:terminated", "error")] })

/-- Fields of the decoded `meetingInfo` envelope inside an `addAttendee`
response (source lines 2353-2371). -/
structure MeetingInfoDecoded where
  MeetingId : Option String := none
  MediaPlacement : Option MediaPlacement := none
  MediaRegion : Option String := none
  ExternalMeetingId : Option String := none
  Attendee : Option Attendee := none
  deriving Repr, DecidableEq

/-- A parsed `addAttendee` response body as read by `joinChimeMeeting`
(source lines 2338-2416).  `meetingInfo`: outer `none` = field absent or
falsy; `some none` = present but `atob`/`JSON.parse` throws (the caught
decode failure); `some (some d)` = decodes to `d`. -/
structure AddAttendeeResp where
  success : Bool := false
  attendeeId : Option String := none
  meetingInfo : Option (Option MeetingInfoDecoded) := none
  MediaPlacement : Option MediaPlacement := none
  MediaRegion : Option String := none
  meeting : Option Meeting := none
  deriving Repr, DecidableEq

/-- The JS condition `mp && mp.AudioHostUrl` on an optional
`MediaPlacement` (lines 2358 and 2379). -/
def placementHasAudioHost (mp : Option MediaPlacement) : Bool :=
  match mp with
  | none => false
  | some p => truthyStr p.AudioHostUrl

/-- The `Meeting` object rebuilt from the decoded `meetingInfo` envelope
(source lines 2360-2365). -/
def decodedMeeting (d : MeetingInfoDecoded) (currentMeetingId : Option String) :
    Meeting :=
  { MeetingId := jsOrO d.MeetingId currentMeetingId
    MediaPlacement := d.MediaPlacement
    MediaRegion := some (jsOrStr d.MediaRegion "ap-northeast-1")
    ExternalMeetingId := jsOrO d.ExternalMeetingId currentMeetingId }

/-- The `Meeting` object rebuilt from a top-level flattened
`MediaPlacement` (source lines 2381-2386). -/
def flatMeeting (data : AddAttendeeResp) (currentMeetingId : Option String) :
    Meeting :=
  { MeetingId := currentMeetingId
    MediaPlacement := data.MediaPlacement
    MediaRegion := some (jsOrStr data.MediaRegion "ap-northeast-1")
    ExternalMeetingId := currentMeetingId }

/-- Step 2 of `joinChimeMeeting` (source lines 2345-2399): the cascade
that picks the `Meeting` object from the response.  `currentMeetingId`
is the `chimeMeetingId` argument (possibly `undefined` on the caller
path). -/
def joinExtractMeeting (data : AddAttendeeResp) (currentMeetingId : Option String)
    (fullMeeting : Option Meeting) : Option Meeting :=
  -- Candidate 1 (lines 2351-2376): the base64-decoded meetingInfo envelope,
  -- valid only when its MediaPlacement has an AudioHostUrl.
  let m1 : Option Meeting :=
    match data.meetingInfo with
    | some (some d) =>
      if placementHasAudioHost d.MediaPlacement then
        some (decodedMeeting d currentMeetingId)
      else none
    | _ => none
  -- Candidate 2 (lines 2378-2387): top-level flattened MediaPlacement.
  let m2 : Option Meeting :=
    match m1 with
    | some m => some m
    | none =>
      if placementHasAudioHost data.MediaPlacement then
        some (flatMeeting data currentMeetingId)
      else none
  -- Candidate 3 (lines 2389-2393): a separate `meeting` field in the
  -- response, checked only for a (possibly AudioHostUrl-less) MediaPlacement.
  let m3 : Option Meeting :=
    match m2 with
    | some m => some m
    | none =>
      match data.meeting with
      | some m => if m.MediaPlacement.isSome then some m else none
      | none => none
  -- Candidate 4 (lines 2395-2399): the caller-supplied fullMeeting
  -- fallback, taken unconditionally when still empty-handed.
  match m3 with
  | some m => some m
  | none => fullMeeting

/-- Attendee extraction in `joinChimeMeeting` (lines 2369-2372 and
2409-2416): the decoded envelope's `Attendee` when present, else the
fallback built from `data.attendeeId` and the `userId` argument. -/
def joinExtractAttendee (data : AddAttendeeResp) (userId : String) : Attendee :=
  match data.meetingInfo with
  | some (some d) =>
    match d.Attendee with
    | some a => a
    | none => { AttendeeId := data.attendeeId, ExternalUserId := some userId }
  | _ => { AttendeeId := data.attendeeId, ExternalUserId := some userId }

/-- The response-processing core of `joinChimeMeeting` (source lines
2338-2447): the `success`/`attendeeId` guard, the meeting cascade, the
final `!meeting || !meeting.MediaPlacement` validation, and the
credentials handed to the media engine via `chime:join:meeting`.
Errors are the thrown `Error` messages. -/
def joinChimeMeetingProcess (data : AddAttendeeResp) (userId : String)
    (currentMeetingId : Option String) (fullMeeting : Option Meeting) :
    Except String (Meeting × Attendee) :=
  if data.success = false then
    .error "addAttendee failed: missing success"
  else if truthyStr data.attendeeId = false then
    .error "addAttendee failed: missing attendeeId"
  else
    match joinExtractMeeting data currentMeetingId fullMeeting with
    | none => .error "addAttendee response missing Meeting with MediaPlacement"
    | some m =>
      if m.MediaPlacement.isSome = false then
        .error "addAttendee response missing Meeting with MediaPlacement"
      else
        .ok (m, joinExtractAttendee data userId)

/-! ## Validation predicates

Each predicate restates, as a proposition, exactly the sequence of
required-field checks the corresponding handler performs before acting. -/

/-- The checks `handleSocketIncomingCall` runs on an Initiate body
(source lines 1787-1802). -/
def InitiateValid (body : MsgBody) : Prop :=
  body.callType = some TYPE_INSTANT ∧ missingStr body.callerId = false ∧
  missingStr body.calleeId = false ∧ missingStr body.role = false

/-- The checks `handleSocketAccepted` runs (source lines 1893-1904). -/
def AcceptedValid (body : MsgBody) : Prop :=
  missingStr body.callerId = false ∧ missingStr body.calleeId = false

/-- The checks `handleSocketDeclined` runs (source lines 1943-1958). -/
def DeclinedValid (body : MsgBody) : Prop :=
  missingStr body.callerId = false ∧ missingStr body.calleeId = false ∧
  missingStr body.reason = false

/-- The checks `handleSocketMeetingReady` runs (source lines 2056-2079). -/
def MeetingReadyValid (body : MsgBody) : Prop :=
  missingStr body.meetingId = false ∧ missingStr body.callerId = false ∧
  missingStr body.calleeId = false ∧ missingStr body.callerRole = false ∧
  missingStr body.calleeRole = false

/-- The checks `handleAppAcceptCall` runs on the event detail plus the
stored-invite guard (source lines 1354-1403). -/
def AppAcceptValid (d : AppAcceptDetail) (s : CallState) : Prop :=
  d.callType = some TYPE_INSTANT ∧ missingStr d.callerId = false ∧
  missingStr d.calleeId = false ∧ missingStr d.role = false ∧
  s.invite.callerRole ≠ none

/-- A DOM input element that exists and carries a non-empty value. -/
def presentNonempty (o : Option String) : Prop :=
  o ≠ none ∧ o ≠ some ""

/-- The checks `handleAcceptClick` runs on the UI inputs plus the
stored-invite guard (source lines 660-763). -/
def AcceptClickValid (els : UIEls) (s : CallState) : Prop :=
  els.callType = some TYPE_INSTANT ∧ presentNonempty els.currentUserId ∧
  presentNonempty els.targetUserId ∧ presentNonempty els.role ∧
  s.invite.callerRole ≠ none

/-! ## Credential-extraction candidates

The structural-validity tests of the four sources `joinChimeMeeting`
consults, in consultation order. -/

/-- Candidate 1: the decoded `meetingInfo` envelope, valid when its
`MediaPlacement.AudioHostUrl` is truthy. -/
def cand1 (data : AddAttendeeResp) : Bool :=
  match data.meetingInfo with
  | some (some d) => placementHasAudioHost d.MediaPlacement
  | _ => false

/-- Candidate 2: the top-level flattened `MediaPlacement`, same validity
test. -/
def cand2 (data : AddAttendeeResp) : Bool :=
  placementHasAudioHost data.MediaPlacement

/-- Candidate 3: a separate `meeting` field in the response, valid when it
merely possesses a `MediaPlacement` (no `AudioHostUrl` requirement). -/
def cand3 (data : AddAttendeeResp) : Bool :=
  match data.meeting with
  | some m => m.MediaPlacement.isSome
  | none => false

/-- Candidate 4: the caller-supplied `fullMeeting` fallback; it is adopted
unconditionally when reached, and then subjected to the final
`MediaPlacement` presence check. -/
def cand4 (fm : Option Meeting) : Bool :=
  match fm with
  | some m => m.MediaPlacement.isSome
  | none => false

/-- Whether an `Except` result is a success. -/
def exceptOk {ε α : Type} : Except ε α → Bool
  | .ok _ => true
  | .error _ => false

/-! ## Concrete protocol data used by witnesses and counterexamples -/

/-- A well-formed instant-call Initiate body from "alice" to "bob". -/
def initBody0 : MsgBody :=
  { callType := some TYPE_INSTANT, callerId := some "alice",
    calleeId := some "bob", role := some "host" }

/-- A session already in a call: busy flag set, callee timer armed. -/
def busyState0 : CallState :=
  { inCallOrConnecting := true, calleeRingTimerId := some 3,
    currentSide := some "callee" }

/-- The idle initial state (all static fields at their source defaults). -/
def idleState0 : CallState := {}

/-- A well-formed Declined body. -/
def declBody0 : MsgBody :=
  { callerId := some "alice", calleeId := some "bob", reason := some "busy" }

/-- A non-Idle session: both ring timers armed and the busy flag set. -/
def sessGuard0 : CallState :=
  { calleeRingTimerId := some 5, callerRingTimerId := some 6,
    inCallOrConnecting := true, currentSide := some "caller" }

/-- A caller-side Ringing session (caller timer armed) that also holds a
callee-side timer handle. -/
def ringingCaller0 : CallState :=
  { callerRingTimerId := some 6, calleeRingTimerId := some 5,
    currentSide := some "caller" }

/-- A SelfStopRing body. -/
def selfStopBody0 : MsgBody := { calleeId := some "alice" }

/-- A stored invitation from "alice" (role "host") to "carol". -/
def invite0 : Invite :=
  { callerId := some "alice", calleeId := some "carol",
    callerRole := some "host", callType := some "video" }

/-- A callee session ringing on `invite0`. -/
def inviteState0 : CallState :=
  { invite := invite0, calleeRingTimerId := some 9, currentSide := some "callee" }

/-- UI inputs at accept time whose target field ("mallory") disagrees with
the stored invite's callerId ("alice"). -/
def els0 : UIEls :=
  { callType := some TYPE_INSTANT, role := some "guest",
    currentUserId := some "carol", targetUserId := some "mallory" }

/-- A valid MeetingReady body. -/
def readyBody0 : MsgBody :=
  { meetingId := some "m1", callerId := some "alice", calleeId := some "bob",
    callerRole := some "host", calleeRole := some "guest",
    chimeMeetingId := some "ch1", dbMeetingId := some "m1" }

/-- An addAttendee response whose only usable credentials sit in the
separate `meeting` field. -/
def meetingFieldResp0 : AddAttendeeResp :=
  { success := true, attendeeId := some "att-1",
    meeting := some { MeetingId := some "cm-1",
                      MediaPlacement := some { AudioHostUrl := some "https://audio.example" } } }

/-- A pending callee join descriptor as stored by the manual-join path. -/
def pending0 : PendingJoin :=
  { meetingId := "m1", calleeId := "carol", calleeRole := "guest",
    chimeId := "ch1", callType := some "video",
    fullMeeting := some { MediaPlacement := some { AudioHostUrl := some "https://audio.example" } } }

/-- A callee session holding `pending0` and the busy flag. -/
def pendingState0 : CallState :=
  { invite := invite0, inCallOrConnecting := true,
    pendingCalleeJoin := some pending0, currentSide := some "callee" }

/-- A valid `app:call:accept` detail for `invite0`. -/
def appDetail0 : AppAcceptDetail :=
  { callerId := some "alice", calleeId := some "carol",
    role := some "guest", callType := some TYPE_INSTANT }

/-- A callee session ringing on `invite0` with the callee timer armed. -/
def appState0 : CallState :=
  { invite := invite0, calleeRingTimerId := some 11, currentSide := some "callee" }

/-! ## Helper lemmas -/

theorem clearCallerRingTimer_spec (s : CallState) :
    clearCallerRingTimer s = { s with callerRingTimerId := none } := by
  cases s with
  | mk inv ce ca busy pend side =>
    cases ca <;> rfl

theorem clearCalleeRingTimer_spec (s : CallState) :
    clearCalleeRingTimer s = { s with calleeRingTimerId := none } := by
  cases s with
  | mk inv ce ca busy pend side =>
    cases ce <;> rfl

/-! ## Claim theorems -/

/-- C1: while the busy-guard flag `_inCallOrConnecting` is true, an
inbound Initiate that passes the required-field validation is answered with
exactly one `Declined(reason="in_another_call")` socket message addressed
to the inviter, and the session state is completely unchanged: the stored
invite, both ring timer handles, `_currentSide` and `_inCallOrConnecting`
keep their prior values and no ring timer is armed. -/
theorem busy_guard_auto_decline (body : MsgBody) (t : Nat) (s : CallState)
    (hvalid : InitiateValid body)
    (hbusy : s.inCallOrConnecting = true) :
    (handleSocketIncomingCall (some body) t s).1 = s ∧
    (handleSocketIncomingCall (some body) t s).2.sends =
      [.declined (body.callerId.getD "") (body.callerId.getD "")
        (body.calleeId.getD "") "in_another_call"] ∧
    (handleSocketIncomingCall (some body) t s).2.localEvents = [] := by
  obtain ⟨h1, h2, h3, h4⟩ := hvalid
  simp only [handleSocketIncomingCall, h1, h2, h3, h4, hbusy]
  simp

/-- Witness for `busy_guard_auto_decline` on a concrete busy session. -/
theorem busy_guard_auto_decline_witness :
    InitiateValid initBody0 ∧ busyState0.inCallOrConnecting = true ∧
    ((handleSocketIncomingCall (some initBody0) 7 busyState0).1 = busyState0 ∧
     (handleSocketIncomingCall (some initBody0) 7 busyState0).2.sends =
       [.declined (initBody0.callerId.getD "") (initBody0.callerId.getD "")
         (initBody0.calleeId.getD "") "in_another_call"] ∧
     (handleSocketIncomingCall (some initBody0) 7 busyState0).2.localEvents = []) :=
  ⟨by constructor <;> first | rfl | (constructor <;> first | rfl | (constructor <;> rfl)),
   rfl,
   busy_guard_auto_decline initBody0 7 busyState0
     (by constructor <;> first | rfl | (constructor <;> first | rfl | (constructor <;> rfl)))
     rfl⟩

/-- C2 (the claim is right, the code is broken): a valid Initiate
received while idle arms the callee 25-second ring timer, but the armed
callback's body in the source consists solely of the comment `// ...` —
when the timer fires nothing is sent to the peer, no ringing is stopped
and no state changes, a strict no-op, contradicting the source's own
header comment "25s timeout ENDS THE FLOW FOR BOTH SIDES". -/
theorem callee_ring_timer_fire_is_noop :
    (handleSocketIncomingCall (some initBody0) 7 idleState0).1.calleeRingTimerId
      = some 7 ∧
    calleeRingTimerCallback (handleSocketIncomingCall (some initBody0) 7 idleState0).1
      = ((handleSocketIncomingCall (some initBody0) 7 idleState0).1,
         ({} : Effects)) :=
  ⟨rfl, rfl⟩

/-- C3 counterexample: a valid remote Declined received in a non-Idle
session (both timers armed, busy flag set) leaves the callee-side ring
timer handle armed and the busy-guard flag `true`, contradicting the claim
that every remote Cancelled/Timeout/Declined clears both timers and resets
the guard. -/
theorem remote_declined_keeps_callee_timer_and_guard :
    (handleSocketDeclined (some declBody0) sessGuard0).1.calleeRingTimerId = some 5 ∧
    (handleSocketDeclined (some declBody0) sessGuard0).1.inCallOrConnecting = true :=
  ⟨rfl, rfl⟩

/-- C3 amended: remote Timeout clears both ring timers and resets the
busy guard (with no validation); remote Cancelled clears both ring timers
but leaves the busy guard unchanged; a validated remote Declined clears
only the caller ring timer, leaving the callee timer handle and the busy
guard unchanged. -/
theorem remote_terminal_message_effects (body? : Option MsgBody) (s : CallState) :
    ((handleSocketTimeout body? s).1.callerRingTimerId = none ∧
     (handleSocketTimeout body? s).1.calleeRingTimerId = none ∧
     (handleSocketTimeout body? s).1.inCallOrConnecting = false) ∧
    ((handleSocketCancelled body? s).1.callerRingTimerId = none ∧
     (handleSocketCancelled body? s).1.calleeRingTimerId = none ∧
     (handleSocketCancelled body? s).1.inCallOrConnecting = s.inCallOrConnecting) ∧
    (∀ body, DeclinedValid body →
      (handleSocketDeclined (some body) s).1.callerRingTimerId = none ∧
      (handleSocketDeclined (some body) s).1.calleeRingTimerId = s.calleeRingTimerId ∧
      (handleSocketDeclined (some body) s).1.inCallOrConnecting = s.inCallOrConnecting) := by
  refine ⟨?_, ?_, ?_⟩
  · simp [handleSocketTimeout, clearCallerRingTimer_spec, clearCalleeRingTimer_spec]
  · simp [handleSocketCancelled, clearCallerRingTimer_spec, clearCalleeRingTimer_spec]
  · intro body hv
    obtain ⟨h1, h2, h3⟩ := hv
    simp [handleSocketDeclined, h1, h2, h3, clearCallerRingTimer_spec]

/-- Witness for `remote_terminal_message_effects`, discharging the
Declined-validity hypothesis at a concrete body and session. -/
theorem remote_terminal_message_effects_witness :
    DeclinedValid declBody0 ∧
    ((handleSocketDeclined (some declBody0) sessGuard0).1.callerRingTimerId = none ∧
     (handleSocketDeclined (some declBody0) sessGuard0).1.calleeRingTimerId =
       sessGuard0.calleeRingTimerId ∧
     (handleSocketDeclined (some declBody0) sessGuard0).1.inCallOrConnecting =
       sessGuard0.inCallOrConnecting) :=
  ⟨⟨rfl, rfl, rfl⟩,
   (remote_terminal_message_effects (some declBody0) sessGuard0).2.2 declBody0
     ⟨rfl, rfl, rfl⟩⟩

/-- C4 counterexample: a Timeout socket message with no body at all —
failing every required-field check of its schema — is not dropped: the
handler still clears both timers and resets the busy-guard flag, mutating
the session state. -/
theorem invalid_timeout_still_mutates :
    sessGuard0.inCallOrConnecting = true ∧
    (handleSocketTimeout none sessGuard0).1.inCallOrConnecting = false ∧
    (handleSocketTimeout none sessGuard0).1 ≠ sessGuard0 := by
  refine ⟨rfl, rfl, ?_⟩
  decide

/-- C4 amended: the Initiate, Accepted, Declined and MeetingReady
handlers check their required-field schema before any transition and drop
a failing message with no state change and no effect; the Timeout,
Cancelled, SelfStopRing and MeetingProblem handlers perform no validation
and apply their state mutations even to a completely missing body. -/
theorem per_kind_validation_policy (body : MsgBody) (t : Nat) (s : CallState) :
    (¬ InitiateValid body → handleSocketIncomingCall (some body) t s = (s, {})) ∧
    (handleSocketIncomingCall none t s = (s, {})) ∧
    (¬ AcceptedValid body → handleSocketAccepted (some body) s = (s, {})) ∧
    (handleSocketAccepted none s = (s, {})) ∧
    (¬ DeclinedValid body → handleSocketDeclined (some body) s = (s, {})) ∧
    (handleSocketDeclined none s = (s, {})) ∧
    (¬ MeetingReadyValid body → handleSocketMeetingReady (some body) s = (s, {}, none)) ∧
    (handleSocketMeetingReady none s = (s, {}, none)) ∧
    ((handleSocketTimeout none s).1.inCallOrConnecting = false ∧
     (handleSocketTimeout none s).1.calleeRingTimerId = none ∧
     (handleSocketTimeout none s).1.callerRingTimerId = none) ∧
    ((handleSocketCancelled none s).1.calleeRingTimerId = none ∧
     (handleSocketCancelled none s).1.callerRingTimerId = none) ∧
    ((handleSocketSelfStopRinging none s).1.calleeRingTimerId = none ∧
     (handleSocketSelfStopRinging none s).1.callerRingTimerId = none) ∧
    ((handleSocketMeetingProblem none s).1.inCallOrConnecting = false) := by
  refine ⟨?_, rfl, ?_, rfl, ?_, rfl, ?_, rfl, ?_, ?_, ?_, ?_⟩
  · intro h
    by_cases h1 : body.callType = some TYPE_INSTANT
    · by_cases h2 : missingStr body.callerId = true
      · simp [handleSocketIncomingCall, h1, h2]
      · by_cases h3 : missingStr body.calleeId = true
        · simp [handleSocketIncomingCall, h1, h2, h3]
        · by_cases h4 : missingStr body.role = true
          · simp [handleSocketIncomingCall, h1, h2, h3, h4]
          · simp only [Bool.not_eq_true] at h2 h3 h4
            exact absurd ⟨h1, h2, h3, h4⟩ h
    · simp [handleSocketIncomingCall, h1]
  · intro h
    by_cases h1 : missingStr body.callerId = true
    · simp [handleSocketAccepted, h1]
    · by_cases h2 : missingStr body.calleeId = true
      · simp [handleSocketAccepted, h1, h2]
      · simp only [Bool.not_eq_true] at h1 h2
        exact absurd ⟨h1, h2⟩ h
  · intro h
    by_cases h1 : missingStr body.callerId = true
    · simp [handleSocketDeclined, h1]
    · by_cases h2 : missingStr body.calleeId = true
      · simp [handleSocketDeclined, h1, h2]
      · by_cases h3 : missingStr body.reason = true
        · simp [handleSocketDeclined, h1, h2, h3]
        · simp only [Bool.not_eq_true] at h1 h2 h3
          exact absurd ⟨h1, h2, h3⟩ h
  · intro h
    by_cases h1 : missingStr body.meetingId = true
    · simp [handleSocketMeetingReady, h1]
    · by_cases h2 : missingStr body.callerId = true
      · simp [handleSocketMeetingReady, h1, h2]
      · by_cases h3 : missingStr body.calleeId = true
        · simp [handleSocketMeetingReady, h1, h2, h3]
        · by_cases h4 : missingStr body.callerRole = true
          · simp [handleSocketMeetingReady, h1, h2, h3, h4]
          · by_cases h5 : missingStr body.calleeRole = true
            · simp [handleSocketMeetingReady, h1, h2, h3, h4, h5]
            · simp only [Bool.not_eq_true] at h1 h2 h3 h4 h5
              exact absurd ⟨h1, h2, h3, h4, h5⟩ h
  · simp [handleSocketTimeout, clearCallerRingTimer_spec, clearCalleeRingTimer_spec]
  · simp [handleSocketCancelled, clearCallerRingTimer_spec, clearCalleeRingTimer_spec]
  · simp [handleSocketSelfStopRinging, clearCallerRingTimer_spec, clearCalleeRingTimer_spec]
  · simp [handleSocketMeetingProblem]

/-- Witness for `per_kind_validation_policy`, discharging the invalidity
hypotheses on a body that fails every schema (all fields absent). -/
theorem per_kind_validation_policy_witness :
    (¬ InitiateValid {} ∧ ¬ AcceptedValid {} ∧ ¬ DeclinedValid {} ∧
      ¬ MeetingReadyValid {}) ∧
    (handleSocketIncomingCall (some {}) 7 sessGuard0 = (sessGuard0, {}) ∧
     handleSocketAccepted (some {}) sessGuard0 = (sessGuard0, {}) ∧
     handleSocketDeclined (some {}) sessGuard0 = (sessGuard0, {}) ∧
     handleSocketMeetingReady (some {}) sessGuard0 = (sessGuard0, {}, none) ∧
     (handleSocketTimeout none sessGuard0).1.inCallOrConnecting = false) :=
  ⟨⟨by intro h; exact absurd h.1 (by decide),
    by intro h; exact absurd h.1 (by decide),
    by intro h; exact absurd h.1 (by decide),
    by intro h; exact absurd h.1 (by decide)⟩,
   ⟨(per_kind_validation_policy {} 7 sessGuard0).1
      (by intro h; exact absurd h.1 (by decide)),
    (per_kind_validation_policy {} 7 sessGuard0).2.2.1
      (by intro h; exact absurd h.1 (by decide)),
    (per_kind_validation_policy {} 7 sessGuard0).2.2.2.2.1
      (by intro h; exact absurd h.1 (by decide)),
    (per_kind_validation_policy {} 7 sessGuard0).2.2.2.2.2.2.1
      (by intro h; exact absurd h.1 (by decide)),
    (per_kind_validation_policy {} 7 sessGuard0).2.2.2.2.2.2.2.2.1.1⟩⟩

/-- C5 counterexample: when the caller's join after MeetingReady fails,
nothing at all is sent over the transport — the MeetingProblem exists only
as a local DOM event — and the busy-guard flag keeps its prior value
(here `true`), so no new call attempt becomes possible; this contradicts
the claim that a join failure behaves alike on both sides. -/
theorem caller_join_failure_no_transport_problem :
    (callerJoinFailedCatch readyBody0 busyState0).2.sends = [] ∧
    (callerJoinFailedCatch readyBody0 busyState0).1.inCallOrConnecting = true :=
  ⟨rfl, rfl⟩

/-- C5 amended: a failure on the callee accept chain sends exactly one
MeetingProblem to the caller over the transport and resets the busy guard;
a failure of the manual callee join resets the busy guard but sends no
MeetingProblem; a failure of the caller's join after MeetingReady sends
nothing over the transport — it only dispatches a local MeetingProblem DOM
event — and leaves the entire session state, busy guard included,
unchanged. -/
theorem failure_path_effects (c : AcceptChain) (errMsg : Option String)
    (body : MsgBody) (s : CallState) :
    ((acceptFlowOnError c errMsg s).1.inCallOrConnecting = false ∧
     (acceptFlowOnError c errMsg s).2.sends =
       [.meetingProblem c.callerIdVal "unknown" c.callerIdVal c.calleeIdVal
         (jsErrText errMsg)]) ∧
    ((manualJoinFailedCatch s).1.inCallOrConnecting = false ∧
     (manualJoinFailedCatch s).2.sends = []) ∧
    ((callerJoinFailedCatch body s).2.sends = [] ∧
     (callerJoinFailedCatch body s).1 = s ∧
     (callerJoinFailedCatch body s).2.localEvents =
       [.meetingProblem (body.meetingId.getD "") (body.callerId.getD "")
         (body.calleeId.getD "") "join failed"]) :=
  ⟨⟨rfl, rfl⟩, ⟨rfl, rfl⟩, ⟨rfl, rfl, rfl⟩⟩

/-- C6 counterexample: a remote SelfStopRing received while the caller
side is ringing does not leave the callee-side ring timer handle
unchanged — it clears it, together with the caller-side one. -/
theorem self_stop_ring_clears_callee_timer :
    ringingCaller0.calleeRingTimerId = some 5 ∧
    (handleSocketSelfStopRinging (some selfStopBody0) ringingCaller0).1.calleeRingTimerId
      = none :=
  ⟨rfl, rfl⟩

/-- C6 amended: a remote SelfStopRing clears *both* ring timer handles
unconditionally (with no body validation), and nothing else happens: the
invite, busy guard, pending join and side are untouched, and no message,
local event or UI dispatch is produced — the operation is housekeeping,
not terminal. -/
theorem self_stop_ring_clears_both_timers (body? : Option MsgBody) (s : CallState) :
    handleSocketSelfStopRinging body? s =
      ({ s with callerRingTimerId := none, calleeRingTimerId := none }, {}) := by
  simp [handleSocketSelfStopRinging, clearCallerRingTimer_spec,
    clearCalleeRingTimer_spec]

/-- C7 counterexample: accepting while the stored invite names
callerId "alice", with the UI target input reading "mallory", sends an
Accepted whose callerId is "mallory" and hands "mallory" to the
provisioning chain — the UI input, not the invitation value. -/
theorem accept_uses_ui_input_ids :
    inviteState0.invite.callerId = some "alice" ∧
    (handleAcceptClick els0 inviteState0).2.1.sends =
      [.selfStopRing "carol" "carol",
       .accepted "mallory" "mallory" "carol",
       .meetingStatus "mallory" "creating_db"
         "Creating meeting in database..." none] ∧
    (handleAcceptClick els0 inviteState0).2.2 =
      some { callerIdVal := "mallory", calleeIdVal := "carol",
             calleeRole := "guest" } ∧
    some "mallory" ≠ inviteState0.invite.callerId := by
  refine ⟨rfl, rfl, rfl, ?_⟩
  decide

/-- C7 amended: on a callee accept only the caller *role* is sourced
from the stored invitation — the accept is refused outright when
`_invite.callerRole` is absent, the MEETING_READY payload carries
`_invite.callerRole`, and its `to` address prefers `_invite.callerId` —
while the callerId and calleeId placed in the Accepted message and handed
to the provisioning chain come from the local UI inputs `targetUserId`
and `currentUserId`. -/
theorem accept_id_sources (els : UIEls) (s : CallState)
    (curUser target role : String)
    (hc : els.currentUserId = some curUser) (ht : els.targetUserId = some target)
    (hty : els.callType = some TYPE_INSTANT) (hr : els.role = some role)
    (h1 : target ≠ "") (h2 : curUser ≠ "") (h3 : role ≠ "") :
    (s.invite.callerRole = none → handleAcceptClick els s = (s, {}, none)) ∧
    (s.invite.callerRole ≠ none →
      (handleAcceptClick els s).2.1.sends =
        [.selfStopRing curUser curUser,
         .accepted target target curUser,
         .meetingStatus target "creating_db"
           "Creating meeting in database..." none] ∧
      (handleAcceptClick els s).2.2 =
        some { callerIdVal := target, calleeIdVal := curUser,
               calleeRole := role }) ∧
    (∀ c meetingId chimeId fm,
      (acceptFlowOnMeetingCreated c meetingId chimeId fm s).2.1.sends =
        [.meetingReady (jsOrStr s.invite.callerId c.callerIdVal) meetingId
          c.callerIdVal c.calleeIdVal s.invite.callerRole c.calleeRole
          chimeId meetingId]) := by
  refine ⟨?_, ?_, ?_⟩
  · intro hrole
    simp [handleAcceptClick, hc, ht, hty, hr, h1, h2, h3, hrole]
  · intro hrole
    constructor <;>
      simp [handleAcceptClick, hc, ht, hty, hr, h1, h2, h3, hrole]
  · intro c meetingId chimeId fm
    by_cases hm : CALLEE_MANUAL_JOIN_ENABLED = true <;>
      simp [acceptFlowOnMeetingCreated, hm]

/-- Witness for `accept_id_sources` at the concrete inputs `els0`,
`inviteState0`. -/
theorem accept_id_sources_witness :
    els0.currentUserId = some "carol" ∧ inviteState0.invite.callerRole ≠ none ∧
    ((handleAcceptClick els0 inviteState0).2.1.sends =
      [.selfStopRing "carol" "carol",
       .accepted "mallory" "mallory" "carol",
       .meetingStatus "mallory" "creating_db"
         "Creating meeting in database..." none] ∧
     (handleAcceptClick els0 inviteState0).2.2 =
       some { callerIdVal := "mallory", calleeIdVal := "carol",
              calleeRole := "guest" }) :=
  ⟨rfl, by decide,
   (accept_id_sources els0 inviteState0 "carol" "mallory" "guest"
      rfl rfl rfl rfl (by decide) (by decide) (by decide)).2.1 (by decide)⟩

/-- A truthy `mp && mp.AudioHostUrl` implies the placement is present. -/
theorem placement_isSome_of_hasAudioHost {mp : Option MediaPlacement}
    (h : placementHasAudioHost mp = true) : mp.isSome = true := by
  cases mp <;> simp [placementHasAudioHost] at h ⊢

/-- A truthy `mp && mp.AudioHostUrl` implies the placement is not `none`. -/
theorem placement_ne_none_of_hasAudioHost {mp : Option MediaPlacement}
    (h : placementHasAudioHost mp = true) : ¬ mp = none := by
  cases mp <;> simp [placementHasAudioHost] at h ⊢

theorem opt_ne_none_of_isSome {α : Type} {o : Option α}
    (h : o.isSome = true) : ¬ o = none := by
  cases o <;> simp at h ⊢

theorem opt_eq_none_of_not_isSome {α : Type} {o : Option α}
    (h : ¬ o.isSome = true) : o = none := by
  cases o <;> simp at h ⊢

/-- C8 counterexample: an addAttendee response in which the decoded
envelope is absent, the top-level flattened MediaPlacement is absent, and
no caller-supplied fallback descriptor is given — so none of the claim's
three candidates validates and the claim requires a throw — is
nevertheless accepted: the join step succeeds through a fourth source,
the response's separate `meeting` field. -/
theorem join_extraction_fourth_candidate :
    meetingFieldResp0.meetingInfo = none ∧
    placementHasAudioHost meetingFieldResp0.MediaPlacement = false ∧
    joinChimeMeetingProcess meetingFieldResp0 "bob" (some "cm-1") none =
      .ok ({ MeetingId := some "cm-1",
             MediaPlacement := some { AudioHostUrl := some "https://audio.example" },
             MediaRegion := none, ExternalMeetingId := none },
           { AttendeeId := some "att-1", ExternalUserId := some "bob" }) :=
  ⟨rfl, rfl, rfl⟩

/-- C8 amended: credential extraction tries *four* candidates in
order — the decoded `meetingInfo` envelope (valid when its
`MediaPlacement` carries an `AudioHostUrl`), the top-level flattened
`MediaPlacement` (same validity test), the response's separate `meeting`
field (valid when it merely has a `MediaPlacement`), and finally the
caller-supplied `fullMeeting` descriptor (adopted unconditionally, then
subjected to the final `MediaPlacement` presence check) — using the
first valid candidate, and it throws exactly when no candidate yields a
meeting with a `MediaPlacement`. -/
theorem join_extraction_cascade (data : AddAttendeeResp) (userId : String)
    (cm : Option String) (fm : Option Meeting)
    (hs : data.success = true) (ha : truthyStr data.attendeeId = true) :
    (exceptOk (joinChimeMeetingProcess data userId cm fm) =
      (cand1 data || cand2 data || cand3 data || cand4 fm)) ∧
    (∀ d, data.meetingInfo = some (some d) →
      placementHasAudioHost d.MediaPlacement = true →
      joinChimeMeetingProcess data userId cm fm =
        .ok (decodedMeeting d cm, joinExtractAttendee data userId)) ∧
    (cand1 data = false → cand2 data = true →
      joinChimeMeetingProcess data userId cm fm =
        .ok (flatMeeting data cm, joinExtractAttendee data userId)) ∧
    (∀ m, cand1 data = false → cand2 data = false → data.meeting = some m →
      m.MediaPlacement.isSome = true →
      joinChimeMeetingProcess data userId cm fm =
        .ok (m, joinExtractAttendee data userId)) ∧
    (∀ m, cand1 data = false → cand2 data = false → cand3 data = false →
      fm = some m →
      joinChimeMeetingProcess data userId cm fm =
        (if m.MediaPlacement.isSome then
          .ok (m, joinExtractAttendee data userId)
         else .error "addAttendee response missing Meeting with MediaPlacement")) := by
  refine ⟨?_, ?_, ?_, ?_, ?_⟩
  · rcases hmi : data.meetingInfo with _ | mi
    · by_cases hp2 : placementHasAudioHost data.MediaPlacement = true
      · simp [joinChimeMeetingProcess, joinExtractMeeting, exceptOk,
          cand1, cand2, hs, ha, hmi, hp2, flatMeeting,
          placement_ne_none_of_hasAudioHost hp2]
      · rcases hm3 : data.meeting with _ | m
        · rcases hfm : fm with _ | m2
          · simp [joinChimeMeetingProcess, joinExtractMeeting, exceptOk,
              cand1, cand2, cand3, cand4, hs, ha, hmi, hp2, hm3, hfm]
          · by_cases hp4 : m2.MediaPlacement.isSome = true
            · simp [joinChimeMeetingProcess, joinExtractMeeting, exceptOk,
                cand1, cand2, cand3, cand4, hs, ha, hmi, hp2, hm3, hfm, hp4,
                opt_ne_none_of_isSome hp4]
            · simp [joinChimeMeetingProcess, joinExtractMeeting, exceptOk,
                cand1, cand2, cand3, cand4, hs, ha, hmi, hp2, hm3, hfm, hp4,
                opt_eq_none_of_not_isSome hp4]
        · by_cases hp3 : m.MediaPlacement.isSome = true
          · simp [joinChimeMeetingProcess, joinExtractMeeting, exceptOk,
              cand1, cand2, cand3, hs, ha, hmi, hp2, hm3, hp3,
              opt_ne_none_of_isSome hp3]
          · rcases hfm : fm with _ | m2
            · simp [joinChimeMeetingProcess, joinExtractMeeting, exceptOk,
                cand1, cand2, cand3, cand4, hs, ha, hmi, hp2, hm3, hp3, hfm]
            · by_cases hp4 : m2.MediaPlacement.isSome = true
              · simp [joinChimeMeetingProcess, joinExtractMeeting, exceptOk,
                  cand1, cand2, cand3, cand4, hs, ha, hmi, hp2, hm3, hfm, hp3,
                  hp4, opt_ne_none_of_isSome hp4]
              · simp [joinChimeMeetingProcess, joinExtractMeeting, exceptOk,
                  cand1, cand2, cand3, cand4, hs, ha, hmi, hp2, hm3, hfm, hp3,
                  hp4, opt_eq_none_of_not_isSome hp4]
    · rcases mi with _ | d
      · by_cases hp2 : placementHasAudioHost data.MediaPlacement = true
        · simp [joinChimeMeetingProcess, joinExtractMeeting, exceptOk,
            cand1, cand2, hs, ha, hmi, hp2, flatMeeting,
            placement_ne_none_of_hasAudioHost hp2]
        · rcases hm3 : data.meeting with _ | m
          · rcases hfm : fm with _ | m2
            · simp [joinChimeMeetingProcess, joinExtractMeeting, exceptOk,
                cand1, cand2, cand3, cand4, hs, ha, hmi, hp2, hm3, hfm]
            · by_cases hp4 : m2.MediaPlacement.isSome = true
              · simp [joinChimeMeetingProcess, joinExtractMeeting, exceptOk,
                  cand1, cand2, cand3, cand4, hs, ha, hmi, hp2, hm3, hfm, hp4,
                  opt_ne_none_of_isSome hp4]
              · simp [joinChimeMeetingProcess, joinExtractMeeting, exceptOk,
                  cand1, cand2, cand3, cand4, hs, ha, hmi, hp2, hm3, hfm, hp4,
                  opt_eq_none_of_not_isSome hp4]
          · by_cases hp3 : m.MediaPlacement.isSome = true
            · simp [joinChimeMeetingProcess, joinExtractMeeting, exceptOk,
                cand1, cand2, cand3, hs, ha, hmi, hp2, hm3, hp3,
                opt_ne_none_of_isSome hp3]
            · rcases hfm : fm with _ | m2
              · simp [joinChimeMeetingProcess, joinExtractMeeting, exceptOk,
                  cand1, cand2, cand3, cand4, hs, ha, hmi, hp2, hm3, hp3, hfm]
              · by_cases hp4 : m2.MediaPlacement.isSome = true
                · simp [joinChimeMeetingProcess, joinExtractMeeting, exceptOk,
                    cand1, cand2, cand3, cand4, hs, ha, hmi, hp2, hm3, hfm, hp3,
                    hp4, opt_ne_none_of_isSome hp4]
                · simp [joinChimeMeetingProcess, joinExtractMeeting, exceptOk,
                    cand1, cand2, cand3, cand4, hs, ha, hmi, hp2, hm3, hfm, hp3,
                    hp4, opt_eq_none_of_not_isSome hp4]
      · by_cases hp1 : placementHasAudioHost d.MediaPlacement = true
        · simp [joinChimeMeetingProcess, joinExtractMeeting, exceptOk,
            cand1, hs, ha, hmi, hp1, decodedMeeting,
            placement_ne_none_of_hasAudioHost hp1]
        · by_cases hp2 : placementHasAudioHost data.MediaPlacement = true
          · simp [joinChimeMeetingProcess, joinExtractMeeting, exceptOk,
              cand1, cand2, hs, ha, hmi, hp1, hp2, flatMeeting,
              placement_ne_none_of_hasAudioHost hp2]
          · rcases hm3 : data.meeting with _ | m
            · rcases hfm : fm with _ | m2
              · simp [joinChimeMeetingProcess, joinExtractMeeting, exceptOk,
                  cand1, cand2, cand3, cand4, hs, ha, hmi, hp1, hp2, hm3, hfm]
              · by_cases hp4 : m2.MediaPlacement.isSome = true
                · simp [joinChimeMeetingProcess, joinExtractMeeting, exceptOk,
                    cand1, cand2, cand3, cand4, hs, ha, hmi, hp1, hp2, hm3, hfm,
                    hp4, opt_ne_none_of_isSome hp4]
                · simp [joinChimeMeetingProcess, joinExtractMeeting, exceptOk,
                    cand1, cand2, cand3, cand4, hs, ha, hmi, hp1, hp2, hm3, hfm,
                    hp4, opt_eq_none_of_not_isSome hp4]
            · by_cases hp3 : m.MediaPlacement.isSome = true
              · simp [joinChimeMeetingProcess, joinExtractMeeting, exceptOk,
                  cand1, cand2, cand3, hs, ha, hmi, hp1, hp2, hm3, hp3,
                  opt_ne_none_of_isSome hp3]
              · rcases hfm : fm with _ | m2
                · simp [joinChimeMeetingProcess, joinExtractMeeting, exceptOk,
                    cand1, cand2, cand3, cand4, hs, ha, hmi, hp1, hp2, hm3, hp3,
                    hfm]
                · by_cases hp4 : m2.MediaPlacement.isSome = true
                  · simp [joinChimeMeetingProcess, joinExtractMeeting, exceptOk,
                      cand1, cand2, cand3, cand4, hs, ha, hmi, hp1, hp2, hm3,
                      hfm, hp3, hp4, opt_ne_none_of_isSome hp4]
                  · simp [joinChimeMeetingProcess, joinExtractMeeting, exceptOk,
                      cand1, cand2, cand3, cand4, hs, ha, hmi, hp1, hp2, hm3,
                      hfm, hp3, hp4, opt_eq_none_of_not_isSome hp4]
  · intro d hmi hp1
    simp [joinChimeMeetingProcess, joinExtractMeeting, hs, ha, hmi, hp1,
      decodedMeeting, placement_ne_none_of_hasAudioHost hp1]
  · intro hc1 hc2
    have hp2 : placementHasAudioHost data.MediaPlacement = true := by
      simpa [cand2] using hc2
    rcases hmi : data.meetingInfo with _ | mi
    · simp [joinChimeMeetingProcess, joinExtractMeeting, hs, ha, hmi, hp2,
        flatMeeting, placement_ne_none_of_hasAudioHost hp2]
    · rcases mi with _ | d
      · simp [joinChimeMeetingProcess, joinExtractMeeting, hs, ha, hmi, hp2,
          flatMeeting, placement_ne_none_of_hasAudioHost hp2]
      · have hp1 : placementHasAudioHost d.MediaPlacement = false := by
          simpa [cand1, hmi] using hc1
        simp [joinChimeMeetingProcess, joinExtractMeeting, hs, ha, hmi, hp1,
          hp2, flatMeeting, placement_ne_none_of_hasAudioHost hp2]
  · intro m hc1 hc2 hm3 hp3
    have hp2 : placementHasAudioHost data.MediaPlacement = false := by
      simpa [cand2] using hc2
    rcases hmi : data.meetingInfo with _ | mi
    · simp [joinChimeMeetingProcess, joinExtractMeeting, hs, ha, hmi, hp2,
        hm3, hp3, opt_ne_none_of_isSome hp3]
    · rcases mi with _ | d
      · simp [joinChimeMeetingProcess, joinExtractMeeting, hs, ha, hmi, hp2,
          hm3, hp3, opt_ne_none_of_isSome hp3]
      · have hp1 : placementHasAudioHost d.MediaPlacement = false := by
          simpa [cand1, hmi] using hc1
        simp [joinChimeMeetingProcess, joinExtractMeeting, hs, ha, hmi, hp1,
          hp2, hm3, hp3, opt_ne_none_of_isSome hp3]
  · intro m hc1 hc2 hc3 hfm
    have hp2 : placementHasAudioHost data.MediaPlacement = false := by
      simpa [cand2] using hc2
    have hmret : (match data.meeting with
        | some mm => if mm.MediaPlacement.isSome = true then some mm else none
        | none => none) = (none : Option Meeting) := by
      rcases hm : data.meeting with _ | mm
      · rfl
      · have : mm.MediaPlacement.isSome = false := by simpa [cand3, hm] using hc3
        simp [this]
    by_cases hp4 : m.MediaPlacement.isSome = true
    · rcases hmi : data.meetingInfo with _ | mi
      · simp [joinChimeMeetingProcess, joinExtractMeeting, hs, ha, hmi, hp2,
          hmret, hfm, hp4, opt_ne_none_of_isSome hp4]
      · rcases mi with _ | d
        · simp [joinChimeMeetingProcess, joinExtractMeeting, hs, ha, hmi, hp2,
            hmret, hfm, hp4, opt_ne_none_of_isSome hp4]
        · have hp1 : placementHasAudioHost d.MediaPlacement = false := by
            simpa [cand1, hmi] using hc1
          simp [joinChimeMeetingProcess, joinExtractMeeting, hs, ha, hmi, hp1,
            hp2, hmret, hfm, hp4, opt_ne_none_of_isSome hp4]
    · rcases hmi : data.meetingInfo with _ | mi
      · simp [joinChimeMeetingProcess, joinExtractMeeting, hs, ha, hmi, hp2,
          hmret, hfm, hp4, opt_eq_none_of_not_isSome hp4]
      · rcases mi with _ | d
        · simp [joinChimeMeetingProcess, joinExtractMeeting, hs, ha, hmi, hp2,
            hmret, hfm, hp4, opt_eq_none_of_not_isSome hp4]
        · have hp1 : placementHasAudioHost d.MediaPlacement = false := by
            simpa [cand1, hmi] using hc1
          simp [joinChimeMeetingProcess, joinExtractMeeting, hs, ha, hmi, hp1,
            hp2, hmret, hfm, hp4, opt_eq_none_of_not_isSome hp4]


/-- Witness for `join_extraction_cascade` on the concrete response
`meetingFieldResp0`. -/
theorem join_extraction_cascade_witness :
    meetingFieldResp0.success = true ∧
    truthyStr meetingFieldResp0.attendeeId = true ∧
    exceptOk (joinChimeMeetingProcess meetingFieldResp0 "bob" (some "cm-1") none) =
      (cand1 meetingFieldResp0 || cand2 meetingFieldResp0 ||
       cand3 meetingFieldResp0 || cand4 none) :=
  ⟨rfl, rfl,
   (join_extraction_cascade meetingFieldResp0 "bob" (some "cm-1") none rfl rfl).1⟩

/-- C9: in manual-join mode the pending callee join descriptor is held
exactly once and consumed exactly once: the provisioning continuation
stores it while deferring the join (no join request is issued); the first
confirm-join action nulls the pending slot — the state in which the join
then runs already has it cleared — and issues the join with the consumed
descriptor; a subsequent confirm-join with no new pending descriptor is a
strict no-op: no state change and no join attempt. -/
theorem pending_join_consumed_once (s : CallState) :
    (∀ c meetingId chimeId fm,
      (acceptFlowOnMeetingCreated c meetingId chimeId fm s).1.pendingCalleeJoin =
        some { meetingId, calleeId := c.calleeIdVal, calleeRole := c.calleeRole,
               chimeId := chimeId, callType := s.invite.callType,
               fullMeeting := fm } ∧
      (acceptFlowOnMeetingCreated c meetingId chimeId fm s).2.2 = none) ∧
    (s.pendingCalleeJoin = none → handleManualCalleeJoin s = (s, {}, none)) ∧
    (∀ p, s.pendingCalleeJoin = some p →
      (handleManualCalleeJoin s).1 = { s with pendingCalleeJoin := none } ∧
      (handleManualCalleeJoin s).2.2 =
        some { meetingId := p.meetingId, userId := p.calleeId,
               role := p.calleeRole, chimeMeetingId := some p.chimeId,
               callType := p.callType, fullMeeting := p.fullMeeting } ∧
      handleManualCalleeJoin (handleManualCalleeJoin s).1 =
        ((handleManualCalleeJoin s).1, {}, none)) := by
  refine ⟨?_, ?_, ?_⟩
  · intro c meetingId chimeId fm
    simp [acceptFlowOnMeetingCreated, CALLEE_MANUAL_JOIN_ENABLED]
  · intro h
    simp [handleManualCalleeJoin, h]
  · intro p hp
    refine ⟨?_, ?_, ?_⟩ <;> simp [handleManualCalleeJoin, hp]

/-- Witness for `pending_join_consumed_once` on a session holding a
concrete pending descriptor: the first confirm consumes it, the second is
a no-op. -/
theorem pending_join_consumed_once_witness :
    pendingState0.pendingCalleeJoin = some pending0 ∧
    ((handleManualCalleeJoin pendingState0).1 =
       { pendingState0 with pendingCalleeJoin := none } ∧
     (handleManualCalleeJoin pendingState0).2.2 =
       some { meetingId := pending0.meetingId, userId := pending0.calleeId,
              role := pending0.calleeRole,
              chimeMeetingId := some pending0.chimeId,
              callType := pending0.callType,
              fullMeeting := pending0.fullMeeting } ∧
     handleManualCalleeJoin (handleManualCalleeJoin pendingState0).1 =
       ((handleManualCalleeJoin pendingState0).1, {}, none)) :=
  ⟨rfl, (pending_join_consumed_once pendingState0).2.2 pending0 rfl⟩

/-- C10 (implicit): the `app:call:accept` path `handleAppAcceptCall`
sends SelfStopRing and Accepted and starts the provisioning chain, but —
unlike the button path `handleAcceptClick` — it never clears the callee
ring timer and never sets `_inCallOrConnecting`: on every input, valid or
not, both fields keep the values they had before the event, whereas a
valid button accept leaves the callee timer cleared and the busy flag
`true`. -/
theorem app_accept_keeps_timer_and_guard (d? : Option AppAcceptDetail)
    (s : CallState) :
    ((handleAppAcceptCall d? s).1.calleeRingTimerId = s.calleeRingTimerId ∧
     (handleAppAcceptCall d? s).1.inCallOrConnecting = s.inCallOrConnecting) ∧
    (∀ d, d? = some d → AppAcceptValid d s →
      (handleAppAcceptCall d? s).2.1.sends =
        [.selfStopRing (d.calleeId.getD "") (d.calleeId.getD ""),
         .accepted (d.callerId.getD "") (d.callerId.getD "") (d.calleeId.getD ""),
         .meetingStatus (d.callerId.getD "") "creating_db"
           "Creating meeting in database..." none] ∧
      (handleAppAcceptCall d? s).2.2 =
        some { callerIdVal := d.callerId.getD "", calleeIdVal := d.calleeId.getD "",
               calleeRole := d.role.getD "" }) ∧
    (∀ els, AcceptClickValid els s →
      (handleAcceptClick els s).1.calleeRingTimerId = none ∧
      (handleAcceptClick els s).1.inCallOrConnecting = true) := by
  refine ⟨?_, ?_, ?_⟩
  · rcases d? with _ | d
    · exact ⟨rfl, rfl⟩
    · by_cases h1 : d.callType = some TYPE_INSTANT
      · by_cases h2 : missingStr d.callerId = true
        · simp [handleAppAcceptCall, h1, h2]
        · by_cases h3 : missingStr d.calleeId = true
          · simp [handleAppAcceptCall, h1, h2, h3]
          · by_cases h4 : missingStr d.role = true
            · simp [handleAppAcceptCall, h1, h2, h3, h4]
            · by_cases h5 : s.invite.callerRole = none
              · simp [handleAppAcceptCall, h1, h2, h3, h4, h5]
              · simp [handleAppAcceptCall, h1, h2, h3, h4, h5]
      · simp [handleAppAcceptCall, h1]
  · intro d hd hv
    obtain ⟨h1, h2, h3, h4, h5⟩ := hv
    subst hd
    constructor <;> simp [handleAppAcceptCall, h1, h2, h3, h4, h5]
  · intro els hv
    obtain ⟨h1, ⟨hc1, hc2⟩, ⟨ht1, ht2⟩, ⟨hr1, hr2⟩, h5⟩ := hv
    rcases hcu : els.currentUserId with _ | curUser
    · exact absurd hcu hc1
    · rcases htu : els.targetUserId with _ | target
      · exact absurd htu ht1
      · rcases hro : els.role with _ | role
        · exact absurd hro hr1
        · have hcv : ¬ curUser = "" := fun h => hc2 (by rw [hcu, h])
          have htv : ¬ target = "" := fun h => ht2 (by rw [htu, h])
          have hrv : ¬ role = "" := fun h => hr2 (by rw [hro, h])
          constructor <;>
            simp [handleAcceptClick, hcu, htu, hro, h1, hcv, htv, hrv, h5,
              clearCalleeRingTimer_spec]

/-- Witness for `app_accept_keeps_timer_and_guard` on the concrete detail
`appDetail0` and session `appState0` (callee timer armed, busy flag
down): both survive the app accept untouched. -/
theorem app_accept_keeps_timer_and_guard_witness :
    AppAcceptValid appDetail0 appState0 ∧
    AcceptClickValid els0 appState0 ∧
    ((handleAppAcceptCall (some appDetail0) appState0).2.1.sends =
       [.selfStopRing (appDetail0.calleeId.getD "") (appDetail0.calleeId.getD ""),
        .accepted (appDetail0.callerId.getD "") (appDetail0.callerId.getD "")
          (appDetail0.calleeId.getD ""),
        .meetingStatus (appDetail0.callerId.getD "") "creating_db"
          "Creating meeting in database..." none] ∧
     (handleAppAcceptCall (some appDetail0) appState0).2.2 =
       some { callerIdVal := appDetail0.callerId.getD "",
              calleeIdVal := appDetail0.calleeId.getD "",
              calleeRole := appDetail0.role.getD "" }) ∧
    ((handleAcceptClick els0 appState0).1.calleeRingTimerId = none ∧
     (handleAcceptClick els0 appState0).1.inCallOrConnecting = true) :=
  ⟨by refine ⟨rfl, rfl, rfl, rfl, ?_⟩; decide,
   by refine ⟨rfl, ⟨?_, ?_⟩, ⟨?_, ?_⟩, ⟨?_, ?_⟩, ?_⟩ <;> decide,
   (app_accept_keeps_timer_and_guard (some appDetail0) appState0).2.1 appDetail0
     rfl (by refine ⟨rfl, rfl, rfl, rfl, ?_⟩; decide),
   (app_accept_keeps_timer_and_guard (some appDetail0) appState0).2.2 els0
     (by refine ⟨rfl, ⟨?_, ?_⟩, ⟨?_, ?_⟩, ⟨?_, ?_⟩, ?_⟩ <;> decide)⟩

end CallFlow

